import Mathlib

set_option maxRecDepth 4000
set_option linter.unusedVariables false

/-! Shallow embedding of the magic-folder indexing and retrieval pipeline:
the vector store (vector_store.rs), the metadata store (metadata_store.rs),
the content extractor (context_extractor.rs), the embedding client
(ollama_client.rs) and the two HTTP handlers (magic-api/src/lib.rs).
Vector components are modelled as rationals; the stores are explicit state
values threaded through the operations. -/

/-- Dimension of the embedding vectors, the constant EMBEDDING_DIM = 768 of
vector_store.rs. -/
def EMBEDDING_DIM : Nat := 768

/-- A lancedb table as the vector store uses it: the fixed vector dimension
recorded in the schema at table creation, and the stored rows, each a path
key paired with its vector. -/
structure LanceTable where
  dim : Nat
  rows : List (String × List Rat)
deriving Repr, DecidableEq

/-- A lancedb connection state: the named tables of the database directory. -/
structure LanceDB where
  tables : List (String × LanceTable)
deriving Repr, DecidableEq

/-- The table names of the database, as conn.table_names() returns them. -/
def LanceDB.tableNames (db : LanceDB) : List String :=
  db.tables.map Prod.fst

/-- Opening a named table, as conn.open_table(name) does: the table of that
name when it exists. -/
def LanceDB.openTable (db : LanceDB) (name : String) : Option LanceTable :=
  db.tables.lookup name

/-- Errors surfaced through the lancedb Result type by the operations
modelled here: a missing table on open, an arrow construction error
(FixedSizeListArray or RecordBatch validation), and an invalid query
rejected by the engine. -/
inductive LanceError where
  | tableNotFound : String → LanceError
  | arrowInvalid : String → LanceError
  | invalidInput : String → LanceError
deriving Repr, DecidableEq

/-- The VectorStore handle of vector_store.rs: it keeps the table name (the
connection and the in-memory schema value carry no further state that the
modelled operations depend on; the schema always has vector dimension
EMBEDDING_DIM). -/
structure VectorStore where
  table_name : String
deriving Repr, DecidableEq

/-- VectorStore::new (vector_store.rs lines 22 to 54): connect, then create
an empty table with the 768-dimension schema only when no table of that
name exists. When the table already exists nothing is checked against it:
the stored schema is neither read nor compared with the requested one, and
the call succeeds with the database unchanged. -/
def VectorStore.new (db : LanceDB) (table_name : String) :
    Except LanceError (LanceDB × VectorStore) :=
  let db' :=
    if db.tableNames.contains table_name then db
    else { tables := db.tables ++ [(table_name, { dim := EMBEDDING_DIM, rows := [] })] }
  Except.ok (db', { table_name := table_name })

/-- Arrow FixedSizeListArray::try_new with a fixed list size: it fails
unless the flat values length is a multiple of the size, and otherwise
yields an array of values.length / size lists. -/
def fixedSizeListTryNew (size : Nat) (values : List Rat) :
    Except LanceError (Nat × List Rat) :=
  if values.length % size = 0 then Except.ok (values.length / size, values)
  else Except.error (.arrowInvalid "values length is not a multiple of the list size")

/-- VectorStore::add_embedding (vector_store.rs lines 56 to 92): open the
table, build the one-row path column and the fixed-size-list vector column
(FixedSizeListArray::try_new with size EMBEDDING_DIM), build the record
batch (RecordBatch::try_new fails unless both columns have the same number
of rows, and the path column has exactly one). The source then calls
tbl.add(batch_reader) and drops the returned builder without executing it,
so on success the table contents are left unchanged. -/
def VectorStore.add_embedding (vs : VectorStore) (db : LanceDB)
    (path : String) (vector : List Rat) : Except LanceError LanceDB :=
  match db.openTable vs.table_name with
  | none => Except.error (.tableNotFound vs.table_name)
  | some _tbl =>
    match fixedSizeListTryNew EMBEDDING_DIM vector with
    | Except.error e => Except.error e
    | Except.ok (numRows, _values) =>
      if numRows = 1 then
        Except.ok db
      else
        Except.error (.arrowInvalid "all columns in a record batch must have the same length")

/-- Squared L2 distance between two vectors, the default lancedb metric. -/
def l2sqDist : List Rat → List Rat → Rat
  | a :: as, b :: bs => (a - b) * (a - b) + l2sqDist as bs
  | _, _ => 0

/-- VectorStore::search_similar (vector_store.rs lines 94 to 133): open the
table and run tbl.vector_search(query).limit(top_k), collecting each result
row as a pair of the path and the engine-added distance column. The engine
rejects a query vector whose length differs from the schema dimension, and
otherwise returns at most top_k rows ascending by distance. -/
def VectorStore.search_similar (vs : VectorStore) (db : LanceDB)
    (query_vector : List Rat) (top_k : Nat) :
    Except LanceError (List (String × Rat)) :=
  match db.openTable vs.table_name with
  | none => Except.error (.tableNotFound vs.table_name)
  | some tbl =>
    if query_vector.length = tbl.dim then
      Except.ok
        (((tbl.rows.map (fun r => (r.1, l2sqDist r.2 query_vector))).insertionSort
            (fun a b => a.2 ≤ b.2)).take top_k)
    else
      Except.error (.invalidInput "query dimension does not match the table schema")

/-- An empty lancedb directory. -/
def emptyDB : LanceDB := { tables := [] }

/-- The database after VectorStore::new has created the files table. -/
def freshFilesDB : LanceDB :=
  { tables := [("files", { dim := EMBEDDING_DIM, rows := [] })] }

/-- The vector store handle on the files table. -/
def filesStore : VectorStore := { table_name := "files" }

/-- A 768-dimension vector of zeros. -/
def v768 : List Rat := List.replicate 768 0

example : VectorStore.new emptyDB "files" = Except.ok (freshFilesDB, filesStore) := rfl

example : filesStore.add_embedding freshFilesDB "a.txt" v768 = Except.ok freshFilesDB := rfl

example : filesStore.search_similar freshFilesDB v768 1 = Except.ok [] := rfl

/-- A row of the sqlite files table of metadata_store.rs: id INTEGER PRIMARY
KEY (the rowid), path TEXT NOT NULL UNIQUE, processed_at TEXT NOT NULL,
vector_id TEXT UNIQUE. -/
structure FileRow where
  id : Int
  path : String
  processed_at : String
  vector_id : String
deriving Repr, DecidableEq

/-- The sqlite files table created by MetadataStore::new. -/
structure FilesTable where
  rows : List FileRow
deriving Repr, DecidableEq

/-- The largest rowid present in the table, 0 for the empty table. When a
row is inserted without an explicit rowid, sqlite assigns one larger than
this value. -/
def maxRowid (t : FilesTable) : Int :=
  t.rows.foldr (fun r m => max r.id m) 0

/-- MetadataStore::add_file_metadata (metadata_store.rs lines 26 to 34):
INSERT OR REPLACE INTO files (path, processed_at, vector_id). No rowid is
supplied, so sqlite picks maxRowid + 1 as the candidate rowid; the REPLACE
conflict resolution deletes every existing row that collides on a UNIQUE
column (path or vector_id) and the insert then succeeds. The function
returns last_insert_rowid, the rowid of the newly inserted row, together
with the updated table; the caller-supplied now string stands for the
chrono timestamp. -/
def MetadataStore.add_file_metadata (t : FilesTable) (now path vector_id : String) :
    FilesTable × Int :=
  let newId := maxRowid t + 1
  let kept := t.rows.filter (fun r => !(r.path == path) && !(r.vector_id == vector_id))
  ({ rows := kept ++ [{ id := newId, path := path, processed_at := now,
                        vector_id := vector_id }] },
   newId)

/-- The file system visible to the pipeline: an association of paths to
their text contents; a path exists exactly when it is listed. -/
structure FileSystem where
  files : List (String × String)
deriving Repr, DecidableEq

/-- Path::exists of the process handler. -/
def FileSystem.existsPath (fs : FileSystem) (p : String) : Bool :=
  (fs.files.lookup p).isSome

/-- An I/O failure reading a file, as fs::read_to_string reports one. -/
inductive IoErr where
  | notFound : String → IoErr
deriving Repr, DecidableEq

/-- The fs::read_to_string call of the content extractor: the contents of
an existing path, an error for a missing one. -/
def FileSystem.readToString (fs : FileSystem) (p : String) : Except IoErr String :=
  match fs.files.lookup p with
  | some c => Except.ok c
  | none => Except.error (.notFound p)

/-- The segment of a character list after its last occurrence of sep (the
whole list when sep does not occur). -/
def lastSegment (sep : Char) (cs : List Char) : List Char :=
  cs.foldl (fun acc c => if c = sep then [] else acc ++ [c]) []

/-- Splits a file name at its last dot: none when no dot occurs, otherwise
the parts before and after the last dot. -/
def splitAtLastDot : List Char → Option (List Char × List Char)
  | [] => none
  | c :: rest =>
    match splitAtLastDot rest with
    | some (b, a) => some (c :: b, a)
    | none => if c = '.' then some ([], rest) else none

/-- Path::extension of the Rust standard library on a path string: take the
file name (the part after the last separator); the extension is none when
the name has no dot or when its only dot is the leading character of a
hidden file, and otherwise the part after the last dot, without any case
folding. -/
def pathExtension (p : String) : Option String :=
  let name := lastSegment '/' p.toList
  match splitAtLastDot name with
  | none => none
  | some (before, after) => if before = [] then none else some (String.mk after)

example : pathExtension "dir/a.txt" = some "txt" := rfl
example : pathExtension "a.TXT" = some "TXT" := rfl
example : pathExtension "b.md" = some "md" := rfl
example : pathExtension "noext" = none := rfl
example : pathExtension ".gitignore" = none := rfl
example : pathExtension "a.tar.gz" = some "gz" := rfl

/-- extract_text_from_file (context_extractor.rs lines 5 to 13): when the
extension is exactly "txt" or exactly "md" the file is read in full with
fs::read_to_string; every other extension (including none at all) yields
Ok with the empty string, without touching the file. The Rust two-armed
match on the extension is rendered as the equivalent test. -/
def extract_text_from_file (fs : FileSystem) (file_path : String) :
    Except IoErr String :=
  let extension := pathExtension file_path
  if extension = some "txt" ∨ extension = some "md" then
    fs.readToString file_path
  else
    Except.ok ""

/-- The outcome of the one HTTP POST the embedding client makes: either the
request itself fails (a reqwest error), or a response arrives carrying a
status (success or not), a body text, and, when the body parses into the
EmbeddingResponse shape, the embedding vector. -/
inductive HttpOutcome where
  | networkError : String → HttpOutcome
  | response : Bool → String → Option (List Rat) → HttpOutcome

/-- The error type of ollama_client.rs: a reqwest failure (network or JSON
decoding) or a non-success API status. -/
inductive OllamaError where
  | reqwest : String → OllamaError
  | apiError : String → OllamaError
deriving Repr, DecidableEq

/-- OllamaClient::get_embedding (ollama_client.rs lines 34 to 54) over an
abstract network, a function from the prompt text to the HTTP outcome: a
send failure propagates as a reqwest error; a non-success status becomes
ApiError with the body text; a success response that does not parse is a
reqwest decode error; otherwise the parsed embedding is returned. -/
def OllamaClient.get_embedding (net : String → HttpOutcome) (text : String) :
    Except OllamaError (List Rat) :=
  match net text with
  | .networkError m => Except.error (.reqwest m)
  | .response success body parsed =>
    if success then
      match parsed with
      | some v => Except.ok v
      | none => Except.error (.reqwest "error decoding response body")
    else
      Except.error (.apiError ("Ollama API request failed: " ++ body))

/-- The HTTP status codes the handlers return on failure. -/
inductive StatusCode where
  | badRequest
  | internalServerError
deriving Repr, DecidableEq

/-- The handler failure type, mirroring the (StatusCode, String) pair. -/
abbrev HandlerErr := StatusCode × String

/-- The ProcessFileResponse body of magic-api/src/lib.rs. -/
structure ProcessFileResponse where
  message : String
  file_id : Option Int
  vector_id : Option String
deriving Repr, DecidableEq

/-- The application state the handlers share: the metadata catalog, the
lancedb state and the vector store handle. -/
structure AppState where
  metadata_store : FilesTable
  vector_db : LanceDB
  vector_store : VectorStore
deriving Repr, DecidableEq

/-- process_file_handler (magic-api/src/lib.rs lines 91 to 164): reject a
missing path with BAD_REQUEST; extract the text, failures mapping to
INTERNAL_SERVER_ERROR; empty text returns the skip response with no id and
no vector key; embed the text, failures mapping to INTERNAL_SERVER_ERROR;
add the embedding under the path string, then record the metadata, and
answer with the catalog id and the vector key. The returned pair is the
application state after the call and the handler result; now stands for
the chrono timestamp taken inside add_file_metadata. -/
def process_file_handler (fs : FileSystem) (net : String → HttpOutcome)
    (now : String) (state : AppState) (file_path : String) :
    AppState × Except HandlerErr ProcessFileResponse :=
  if fs.existsPath file_path = false then
    (state, Except.error (.badRequest, "File not found: " ++ file_path))
  else
    match extract_text_from_file fs file_path with
    | Except.error _ =>
      (state, Except.error (.internalServerError, "Extraction error"))
    | Except.ok text_content =>
      if text_content = "" then
        (state, Except.ok { message := "No text extracted or unsupported file type",
                            file_id := none, vector_id := none })
      else
        match OllamaClient.get_embedding net text_content with
        | Except.error _ =>
          (state, Except.error (.internalServerError, "Ollama embedding error"))
        | Except.ok embedding =>
          let vector_id_str := file_path
          match state.vector_store.add_embedding state.vector_db vector_id_str embedding with
          | Except.error _ =>
            (state, Except.error (.internalServerError, "Vector store error"))
          | Except.ok db' =>
            let res := MetadataStore.add_file_metadata state.metadata_store now
              file_path vector_id_str
            ({ state with vector_db := db', metadata_store := res.1 },
             Except.ok { message := "File processed successfully",
                         file_id := some res.2, vector_id := some vector_id_str })

/-- The SearchResponseFile body of magic-api/src/lib.rs. -/
structure SearchResponseFile where
  path : String
  score : Rat
deriving Repr, DecidableEq

/-- search_handler (magic-api/src/lib.rs lines 178 to 211): embed the query
text, failures mapping to INTERNAL_SERVER_ERROR; default top_k to 5 when
the request omits it; run the similarity search, failures mapping to
INTERNAL_SERVER_ERROR; and map each (path, score) pair of the result, in
order, to a response row. -/
def search_handler (net : String → HttpOutcome) (state : AppState)
    (query : String) (top_k? : Option Nat) :
    Except HandlerErr (List SearchResponseFile) :=
  match OllamaClient.get_embedding net query with
  | Except.error _ => Except.error (.internalServerError, "Ollama query embedding error")
  | Except.ok query_embedding =>
    let top_k := top_k?.getD 5
    match state.vector_store.search_similar state.vector_db query_embedding top_k with
    | Except.error _ => Except.error (.internalServerError, "Vector search error")
    | Except.ok results =>
      Except.ok (results.map (fun pr => { path := pr.1, score := pr.2 }))

/-- A network on which every embedding request succeeds with the zero
vector of dimension 768. -/
def goodNet : String → HttpOutcome :=
  fun _ => .response true "" (some v768)

/-- The initial application state: empty catalog, freshly created files
table. -/
def st0 : AppState :=
  { metadata_store := { rows := [] }, vector_db := freshFilesDB,
    vector_store := filesStore }

example :
    process_file_handler { files := [("a.txt", "hello")] } goodNet "t1" st0 "a.txt" =
      ({ metadata_store := { rows := [{ id := 1, path := "a.txt", processed_at := "t1",
                                        vector_id := "a.txt" }] },
         vector_db := freshFilesDB, vector_store := filesStore },
       Except.ok { message := "File processed successfully", file_id := some 1,
                   vector_id := some "a.txt" }) := rfl

/-- The skip response of the process handler for empty extracted text. -/
def skipResponse : ProcessFileResponse :=
  { message := "No text extracted or unsupported file type",
    file_id := none, vector_id := none }

/-- The state after processing a.txt (content "hello") from the initial
state. -/
def st1 : AppState :=
  (process_file_handler { files := [("a.txt", "hello")] } goodNet "t1" st0 "a.txt").1

/-- The state after reprocessing a.txt with different content ("world"). -/
def st2 : AppState :=
  (process_file_handler { files := [("a.txt", "world")] } goodNet "t2" st1 "a.txt").1

/-- Number of catalog rows whose path column equals p. -/
def countCatalogRows (t : FilesTable) (p : String) : Nat :=
  (t.rows.filter (fun r => r.path == p)).length

/-- Number of vector-index rows keyed by p in the named table. -/
def countIndexRows (db : LanceDB) (name p : String) : Nat :=
  match db.openTable name with
  | some t => (t.rows.filter (fun r => r.1 == p)).length
  | none => 0

/-- Every row id is bounded by the foldr-max over the row list. -/
theorem le_foldr_max {l : List FileRow} {r : FileRow} (h : r ∈ l) :
    r.id ≤ l.foldr (fun r m => max r.id m) 0 := by
  induction l with
  | nil => cases h
  | cons a l ih =>
    rcases List.mem_cons.mp h with h1 | h2
    · subst h1; exact le_max_left _ _
    · exact le_trans (ih h2) (le_max_right _ _)

/-- A successful association lookup puts the key among the mapped-out
first components. -/
theorem contains_fst_of_lookup {l : List (String × LanceTable)} {k : String}
    {v : LanceTable} (h : l.lookup k = some v) :
    (l.map Prod.fst).contains k = true := by
  induction l with
  | nil => simp [List.lookup] at h
  | cons a l ih =>
    cases hk : k == a.1 with
    | true => simp only [List.map_cons, List.contains_cons, hk, Bool.true_or]
    | false =>
      have h' : l.lookup k = some v := by
        simpa [List.lookup, hk] using h
      simp only [List.map_cons, List.contains_cons, hk, Bool.false_or]
      exact ih h'

/-- A path whose extension is neither exactly "txt" nor exactly "md" is
extracted to the empty string on every file system, without any read. -/
theorem extract_empty_of_unrecognized (fs : FileSystem) (p : String)
    (ht : pathExtension p ≠ some "txt") (hm : pathExtension p ≠ some "md") :
    extract_text_from_file fs p = Except.ok "" := by
  unfold extract_text_from_file
  rw [if_neg]
  rintro (h | h)
  · exact ht h
  · exact hm h

/-- An existing path whose extraction yields the empty string makes the
process handler answer with the skip response and leave the state as it
was, whatever the network behaves like. -/
theorem skip_of_extract_empty (fs : FileSystem) (net : String → HttpOutcome)
    (now : String) (state : AppState) (p : String)
    (hex : fs.existsPath p = true)
    (hextract : extract_text_from_file fs p = Except.ok "") :
    process_file_handler fs net now state p = (state, Except.ok skipResponse) := by
  unfold process_file_handler
  rw [hex, hextract]
  simp [skipResponse]

/-- C1: the claim says add_embedding(k, v) followed by search_similar(v, 1)
on the same store returns the key k at a distance of about 0. In the source
the call tbl.add(batch_reader) at vector_store.rs line 89 drops the returned
builder without executing it, so add_embedding succeeds without writing a
row and the subsequent search returns the empty list rather than a sequence
whose first element is (k, 0). Evaluated at the key "a.txt" and the zero
vector of dimension 768 on a freshly created files table. -/
theorem c1_add_then_search_finds_no_rows :
    filesStore.add_embedding freshFilesDB "a.txt" v768 = Except.ok freshFilesDB ∧
    filesStore.search_similar freshFilesDB v768 1 = Except.ok [] :=
  ⟨rfl, rfl⟩

/-- C2: a vector whose length differs from the configured dimension 768 is
rejected by both operations (add_embedding through the arrow fixed-size-list
and record-batch validation, search_similar through the engine's query
dimension check), and neither operation truncates or zero-pads: both return
an error, leaving the vector and the stores untouched. -/
theorem c2_dimension_mismatch_rejected (vs : VectorStore) (db : LanceDB)
    (tbl : LanceTable) (p : String) (v : List Rat) (k : Nat)
    (hopen : db.openTable vs.table_name = some tbl)
    (hdim : tbl.dim = EMBEDDING_DIM)
    (hlen : v.length ≠ EMBEDDING_DIM) :
    (∃ m, vs.add_embedding db p v = Except.error (.arrowInvalid m)) ∧
    vs.search_similar db v k =
      Except.error (.invalidInput "query dimension does not match the table schema") := by
  constructor
  · unfold VectorStore.add_embedding
    rw [hopen]
    by_cases hmod : v.length % EMBEDDING_DIM = 0
    · have hne : v.length / EMBEDDING_DIM ≠ 1 := by
        intro h1
        apply hlen
        have hdvd := Nat.div_mul_cancel (Nat.dvd_of_mod_eq_zero hmod)
        rw [h1, one_mul] at hdvd
        omega
      exact ⟨"all columns in a record batch must have the same length",
        by simp [fixedSizeListTryNew, hmod, hne]⟩
    · exact ⟨"values length is not a multiple of the list size",
        by simp [fixedSizeListTryNew, hmod]⟩
  · unfold VectorStore.search_similar
    rw [hopen]
    have hvd : v.length ≠ tbl.dim := by
      rw [hdim]; exact hlen
    simp [hvd]

/-- Witness for C2 at the files table and the length-2 vector. -/
theorem c2_witness :
    (([0, 0] : List Rat).length ≠ EMBEDDING_DIM) ∧
    ((∃ m, filesStore.add_embedding freshFilesDB "a.txt" [0, 0] =
        Except.error (.arrowInvalid m)) ∧
      filesStore.search_similar freshFilesDB [0, 0] 1 =
        Except.error (.invalidInput "query dimension does not match the table schema")) :=
  ⟨by decide,
   c2_dimension_mismatch_rejected filesStore freshFilesDB
     { dim := EMBEDDING_DIM, rows := [] } "a.txt" [0, 0] 1 rfl rfl (by decide)⟩

/-- C3: the claim says that after two successful processings of the same
path the catalog holds exactly one row for it (the later metadata) and the
vector index holds two rows keyed by it. The catalog half holds: one row,
carrying the second processing's timestamp. The index half fails: because
tbl.add(batch_reader) at vector_store.rs line 89 drops the add builder
without executing it, the index holds zero rows for the path, not two.
Evaluated at the path "a.txt" processed with content "hello" and then with
content "world". -/
theorem c3_two_processings_one_catalog_row_no_index_rows :
    countCatalogRows st2.metadata_store "a.txt" = 1 ∧
    st2.metadata_store =
      { rows := [{ id := 2, path := "a.txt", processed_at := "t2",
                   vector_id := "a.txt" }] } ∧
    countIndexRows st2.vector_db "files" "a.txt" = 0 :=
  ⟨rfl, rfl, rfl⟩

/-- C4: processing an existing path whose extension is outside the
allow-list (neither exactly "txt" nor exactly "md") answers with the skip
response, a success carrying no id and no vector key, and leaves the
application state unchanged; the conclusion holds for every network
function, so no embedding call influences it, and neither store gains a
row. -/
theorem c4_unrecognized_extension_is_skipped (fs : FileSystem)
    (net : String → HttpOutcome) (now : String) (state : AppState) (p : String)
    (hex : fs.existsPath p = true)
    (ht : pathExtension p ≠ some "txt")
    (hm : pathExtension p ≠ some "md") :
    process_file_handler fs net now state p = (state, Except.ok skipResponse) :=
  skip_of_extract_empty fs net now state p hex
    (extract_empty_of_unrecognized fs p ht hm)

/-- Witness for C4 at an existing pdf file. -/
theorem c4_witness :
    (FileSystem.existsPath { files := [("a.pdf", "content")] } "a.pdf" = true) ∧
    (pathExtension "a.pdf" ≠ some "txt") ∧
    (pathExtension "a.pdf" ≠ some "md") ∧
    process_file_handler { files := [("a.pdf", "content")] } goodNet "t1" st0 "a.pdf" =
      (st0, Except.ok skipResponse) :=
  ⟨by decide, by decide, by decide,
   c4_unrecognized_extension_is_skipped { files := [("a.pdf", "content")] } goodNet
     "t1" st0 "a.pdf" (by decide) (by decide) (by decide)⟩

/-- C5: processing a path that does not exist on the file system fails with
the BAD_REQUEST not-found error and performs no further pipeline step: the
application state is returned unchanged and the conclusion holds for every
network function, so neither extraction nor embedding nor any store write
happens. -/
theorem c5_missing_path_is_not_found (fs : FileSystem)
    (net : String → HttpOutcome) (now : String) (state : AppState) (p : String)
    (h : fs.existsPath p = false) :
    process_file_handler fs net now state p =
      (state, Except.error (.badRequest, "File not found: " ++ p)) := by
  unfold process_file_handler
  rw [h]
  simp

/-- Witness for C5 at the empty file system. -/
theorem c5_witness :
    (FileSystem.existsPath { files := [] } "a.txt" = false) ∧
    process_file_handler { files := [] } goodNet "t1" st0 "a.txt" =
      (st0, Except.error (.badRequest, "File not found: " ++ "a.txt")) :=
  ⟨by decide,
   c5_missing_path_is_not_found { files := [] } goodNet "t1" st0 "a.txt" (by decide)⟩

/-- C6: when the embedding call fails (a network failure, a non-success
status or an unparseable response all surface as an error of
get_embedding), the process handler fails with the internal-server-error
embedding outcome and the application state, hence both stores, is left
exactly as it was: a failure before any persistence is a safe no-op. -/
theorem c6_embedding_failure_is_safe_noop (fs : FileSystem)
    (net : String → HttpOutcome) (now : String) (state : AppState)
    (p content : String) (e : OllamaError)
    (hex : fs.existsPath p = true)
    (hextract : extract_text_from_file fs p = Except.ok content)
    (hne : content ≠ "")
    (hemb : OllamaClient.get_embedding net content = Except.error e) :
    process_file_handler fs net now state p =
      (state, Except.error (.internalServerError, "Ollama embedding error")) := by
  unfold process_file_handler
  rw [hex, hextract]
  simp [hne, hemb]

/-- A network on which every request fails before a response arrives. -/
def downNet : String → HttpOutcome :=
  fun _ => .networkError "connection refused"

/-- Witness for C6 at a text file and a network that refuses the
connection. -/
theorem c6_witness :
    (FileSystem.existsPath { files := [("a.txt", "hello")] } "a.txt" = true) ∧
    (extract_text_from_file { files := [("a.txt", "hello")] } "a.txt" =
      Except.ok "hello") ∧
    ("hello" ≠ "") ∧
    (OllamaClient.get_embedding downNet "hello" =
      Except.error (.reqwest "connection refused")) ∧
    process_file_handler { files := [("a.txt", "hello")] } downNet "t1" st0 "a.txt" =
      (st0, Except.error (.internalServerError, "Ollama embedding error")) :=
  ⟨by decide, rfl, by decide, rfl,
   c6_embedding_failure_is_safe_noop { files := [("a.txt", "hello")] } downNet "t1"
     st0 "a.txt" "hello" (.reqwest "connection refused") (by decide) rfl
     (by decide) rfl⟩

/-- A lancedb state holding a files table created with dimension 1024, as a
deployment using a larger embedding model would have left it. -/
def db1024 : LanceDB :=
  { tables := [("files", { dim := 1024, rows := [] })] }

/-- C7 (counterexample): the claim says a later initialization against an
existing table whose stored dimension differs from the requested 768 fails
with SchemaMismatch. VectorStore::new never inspects an existing table's
schema: against the files table stored with dimension 1024 it returns Ok,
leaving the table as it is, instead of any error. -/
theorem c7_counterexample_mismatched_dim_accepted :
    VectorStore.new db1024 "files" = Except.ok (db1024, filesStore) := rfl

/-- C7 (amended): initialization is idempotent in the sense that against
any existing table of the requested name, whatever its stored dimension
(in particular one different from 768), it succeeds without touching the
database and without raising any schema error; the table is created only
when absent. -/
theorem c7_new_skips_existing_table_without_schema_check (db : LanceDB)
    (name : String) (tbl : LanceTable)
    (hopen : db.openTable name = some tbl)
    (hdim : tbl.dim ≠ EMBEDDING_DIM) :
    VectorStore.new db name = Except.ok (db, { table_name := name }) := by
  unfold VectorStore.new LanceDB.tableNames
  rw [contains_fst_of_lookup hopen]
  simp

/-- Witness for the amended C7 at the 1024-dimension table. -/
theorem c7_witness :
    (db1024.openTable "files" = some { dim := 1024, rows := [] }) ∧
    ((1024 : Nat) ≠ EMBEDDING_DIM) ∧
    VectorStore.new db1024 "files" = Except.ok (db1024, { table_name := "files" }) :=
  ⟨rfl, by decide,
   c7_new_skips_existing_table_without_schema_check db1024 "files"
     { dim := 1024, rows := [] } rfl (by decide)⟩

/-- C8: when the request omits top_k the search handler uses 5 (the two
calls are equal outcome for outcome), and whatever list of (key, distance)
pairs the vector index returns for the defaulted top_k is mapped
elementwise, in order, to (path = key, score = distance) response rows,
with no re-ranking and no deduplication. -/
theorem c8_search_defaults_to_five_and_maps_in_order (net : String → HttpOutcome)
    (state : AppState) (q : String) (top_k? : Option Nat) (qv : List Rat)
    (rs : List (String × Rat))
    (hemb : OllamaClient.get_embedding net q = Except.ok qv)
    (hsearch : state.vector_store.search_similar state.vector_db qv (top_k?.getD 5) =
      Except.ok rs) :
    search_handler net state q top_k? =
      Except.ok (rs.map (fun pr => { path := pr.1, score := pr.2 })) ∧
    search_handler net state q none = search_handler net state q (some 5) := by
  constructor
  · unfold search_handler
    rw [hemb]
    simp only []
    rw [hsearch]
  · rfl

/-- Witness for C8 on the fresh store, where the defaulted search returns
the empty result list. -/
theorem c8_witness :
    (OllamaClient.get_embedding goodNet "query" = Except.ok v768) ∧
    (filesStore.search_similar freshFilesDB v768 ((none : Option Nat).getD 5) =
      Except.ok []) ∧
    (search_handler goodNet st0 "query" none = Except.ok [] ∧
      search_handler goodNet st0 "query" none = search_handler goodNet st0 "query" (some 5)) :=
  ⟨rfl, rfl,
   c8_search_defaults_to_five_and_maps_in_order goodNet st0 "query" none v768 [] rfl rfl⟩

/-- Character-wise lowercasing of a string, used to say that an extension
is a case variant of an allowed one. -/
def lowerStr (s : String) : String :=
  String.mk (s.toList.map Char.toLower)

/-- C9: extension recognition is case-sensitive. A path whose extension is
a case variant of an allowed one but not literally "txt" or "md" (for
example "TXT" or "Md", whose lowercasing is allowed) is extracted to the
empty string on every file system, so the file is never read, and
processing such an existing file answers with the skip response, leaving
the state unchanged, even though its content is extractable. -/
theorem c9_extension_match_is_case_sensitive (fs : FileSystem)
    (net : String → HttpOutcome) (now : String) (state : AppState)
    (p ext : String)
    (hext : pathExtension p = some ext)
    (hlow : lowerStr ext = "txt" ∨ lowerStr ext = "md")
    (ht : ext ≠ "txt") (hm : ext ≠ "md")
    (hex : fs.existsPath p = true) :
    (∀ fs2 : FileSystem, extract_text_from_file fs2 p = Except.ok "") ∧
    process_file_handler fs net now state p = (state, Except.ok skipResponse) := by
  have hnt : pathExtension p ≠ some "txt" := by
    rw [hext]; intro hc; exact ht (Option.some.inj hc)
  have hnm : pathExtension p ≠ some "md" := by
    rw [hext]; intro hc; exact hm (Option.some.inj hc)
  exact ⟨fun fs2 => extract_empty_of_unrecognized fs2 p hnt hnm,
    skip_of_extract_empty fs net now state p hex
      (extract_empty_of_unrecognized fs p hnt hnm)⟩

/-- Witness for C9 at the upper-case file a.TXT with readable content. -/
theorem c9_witness :
    (pathExtension "a.TXT" = some "TXT") ∧
    (lowerStr "TXT" = "txt" ∨ lowerStr "TXT" = "md") ∧
    ("TXT" ≠ "txt") ∧ ("TXT" ≠ "md") ∧
    (FileSystem.existsPath { files := [("a.TXT", "hello")] } "a.TXT" = true) ∧
    ((∀ fs2 : FileSystem, extract_text_from_file fs2 "a.TXT" = Except.ok "") ∧
      process_file_handler { files := [("a.TXT", "hello")] } goodNet "t1" st0 "a.TXT" =
        (st0, Except.ok skipResponse)) :=
  ⟨rfl, Or.inl (by decide), by decide, by decide, by decide,
   c9_extension_match_is_case_sensitive { files := [("a.TXT", "hello")] } goodNet
     "t1" st0 "a.TXT" "TXT" rfl (Or.inl (by decide)) (by decide) (by decide)
     (by decide)⟩

/-- C10: reprocessing an already-recorded path through add_file_metadata
(INSERT OR REPLACE with no explicit rowid) assigns and returns an identity
strictly greater than the replaced row's, and in particular never returns
the original identity: the returned last_insert_rowid is one more than the
table's largest rowid, which bounds the replaced row's id. -/
theorem c10_replace_returns_strictly_larger_id (t : FilesTable)
    (now p vid : String) (r : FileRow)
    (hmem : r ∈ t.rows) (hpath : r.path = p) :
    r.id < (MetadataStore.add_file_metadata t now p vid).2 ∧
    (MetadataStore.add_file_metadata t now p vid).2 ≠ r.id := by
  have hle : r.id ≤ maxRowid t := le_foldr_max hmem
  have hlt : r.id < maxRowid t + 1 := by omega
  have h2 : (MetadataStore.add_file_metadata t now p vid).2 = maxRowid t + 1 := rfl
  rw [h2]
  exact ⟨hlt, by omega⟩

/-- Witness for C10 at a one-row table holding the path a.txt under id 1. -/
theorem c10_witness :
    (({ id := 1, path := "a.txt", processed_at := "t0", vector_id := "a.txt" } : FileRow) ∈
      ({ rows := [{ id := 1, path := "a.txt", processed_at := "t0",
                    vector_id := "a.txt" }] } : FilesTable).rows) ∧
    (({ id := 1, path := "a.txt", processed_at := "t0",
        vector_id := "a.txt" } : FileRow).path = "a.txt") ∧
    ((1 : Int) <
        (MetadataStore.add_file_metadata
          { rows := [{ id := 1, path := "a.txt", processed_at := "t0",
                       vector_id := "a.txt" }] } "t1" "a.txt" "a.txt").2 ∧
      (MetadataStore.add_file_metadata
          { rows := [{ id := 1, path := "a.txt", processed_at := "t0",
                       vector_id := "a.txt" }] } "t1" "a.txt" "a.txt").2 ≠ 1) :=
  ⟨by decide, by decide,
   c10_replace_returns_strictly_larger_id
     { rows := [{ id := 1, path := "a.txt", processed_at := "t0",
                  vector_id := "a.txt" }] } "t1" "a.txt" "a.txt"
     { id := 1, path := "a.txt", processed_at := "t0", vector_id := "a.txt" }
     (by decide) (by decide)⟩
